import Mathlib

/-!
Verification of the TrustLayer escrow lifecycle engine.

Two embeddings are developed here, both translated from the repository's
source code:

* the internal (off-chain) engine of `src/services/escrow/escrow.js`,
  whose SQLite tables are modelled as lists of rows and whose TEXT
  datetime values are modelled as integer timestamps (milliseconds);
  lexicographic comparison of two same-format datetime strings agrees
  with the integer order used here, while the sweeper's one mixed-format
  comparison (a `toISOString` deadline against `datetime('now')`) is
  decided at the `'T'`-versus-space byte and therefore compares UTC
  calendar days — modelled by `utcDay` below;

* the on-chain ClawVault contract (`contracts/ClawVault.sol`), whose
  per-escrow functions are modelled as pure functions on a single escrow
  record, returning the updated record together with the list of USDC
  transfers the function performs.

Every operation returns its error outcomes through `Except`, mirroring
the JavaScript `throw` / Solidity `require` sites in source order.
-/

namespace TrustLayer

/-! ## Internal-mode store (escrow.js) -/

/-- One row of the `escrows` table (escrow.js, `CREATE TABLE escrows`).
`amount_usdc` is stored as TEXT by the code and passed through unchanged;
it is modelled by its numeric value. -/
structure EscrowRow where
  id : String
  buyer_address : String
  seller_address : String
  amount_usdc : Int
  service_description : String
  acceptance_criteria : Option String
  deadline : Int
  status : String
  deposit_tx : Option String
  dispute_reason : Option String
  dispute_evidence : Option String
  resolution : Option String
  created_at : Int
  updated_at : Int
  deriving DecidableEq, Repr

/-- One row of the append-only `escrow_events` table.  The JSON payload
passed to `JSON.stringify` is modelled as a key/value list. -/
structure EventRow where
  escrow_id : String
  event_type : String
  actor : String
  data : List (String × String)
  created_at : Int
  deriving DecidableEq, Repr

/-- The two durable tables of the internal store. -/
structure EscrowDB where
  escrows : List EscrowRow
  events : List EventRow
  deriving DecidableEq, Repr

/-- Query `SELECT * FROM escrows WHERE id = ?` (primary-key lookup returns the
first — in a well-formed store the only — matching row). -/
def getEscrow (db : EscrowDB) (escrowId : String) : Option EscrowRow :=
  db.escrows.find? (fun e => e.id == escrowId)

/-- Statement `UPDATE escrows SET ... WHERE id = ?`: apply `f` to every row whose
id matches. -/
def updateEscrow (db : EscrowDB) (escrowId : String) (f : EscrowRow → EscrowRow) :
    EscrowDB :=
  { db with escrows := db.escrows.map (fun e => if e.id = escrowId then f e else e) }

/-- Function `logEvent` (escrow.js line 267): append one row to `escrow_events`. -/
def logEvent (db : EscrowDB) (now : Int) (escrowId eventType actor : String)
    (data : List (String × String)) : EscrowDB :=
  { db with events := db.events ++
      [{ escrow_id := escrowId, event_type := eventType, actor := actor,
         data := data, created_at := now }] }

/-! ## Internal-mode lifecycle operations (escrow.js)

Each operation takes the current store, the current time `now`
(`Date.now()` / SQLite `datetime('now')`), and its arguments, and returns
the store after the call together with the call's outcome.  A thrown
JavaScript error becomes `Except.error` carrying the message; the store
component records every mutation performed before the throw (in the
source, all throws happen before any write). -/

/-- Response object of `createEscrow`. -/
structure CreateResp where
  id : String
  status : String
  buyer : String
  seller : String
  amount_usdc : Int
  deadline : Int
  deriving DecidableEq, Repr

/-- Function `createEscrow` (escrow.js line 69).  The random id `esc_...` is an
input here.  The source performs no validation of any argument: it always
inserts a row with status `"created"` and
`deadline = now + deadlineHours * 3600 * 1000`, then logs a `"created"`
event. -/
def createEscrow (db : EscrowDB) (now : Int) (id : String)
    (buyerAddress sellerAddress : String) (amountUsdc : Int)
    (serviceDescription : String) (acceptanceCriteria : Option String)
    (deadlineHours : Int) : EscrowDB × CreateResp :=
  let deadline := now + deadlineHours * 3600 * 1000
  let row : EscrowRow :=
    { id := id, buyer_address := buyerAddress, seller_address := sellerAddress,
      amount_usdc := amountUsdc, service_description := serviceDescription,
      acceptance_criteria := acceptanceCriteria, deadline := deadline,
      status := "created", deposit_tx := none, dispute_reason := none,
      dispute_evidence := none, resolution := none,
      created_at := now, updated_at := now }
  let db1 : EscrowDB := { db with escrows := db.escrows ++ [row] }
  let db2 := logEvent db1 now id "created" buyerAddress
    [("amountUsdc", toString amountUsdc), ("deadline", toString deadline)]
  (db2, { id := id, status := "created", buyer := buyerAddress,
          seller := sellerAddress, amount_usdc := amountUsdc,
          deadline := deadline })

/-- Response object of the single-status operations. -/
structure StatusResp where
  id : String
  status : String
  deriving DecidableEq, Repr

/-- The row update performed by `fundEscrow`'s SQL UPDATE. -/
def fundFlip (now : Int) (depositTxHash : String) (e : EscrowRow) : EscrowRow :=
  { e with status := "funded", deposit_tx := some depositTxHash, updated_at := now }

/-- Function `fundEscrow` (escrow.js line 101): requires the row to exist with
status `"created"`; sets status `"funded"`, records the deposit tx and
logs a `"funded"` event. -/
def fundEscrow (db : EscrowDB) (now : Int) (escrowId depositTxHash : String) :
    EscrowDB × Except String StatusResp :=
  match getEscrow db escrowId with
  | none => (db, Except.error "Escrow not found")
  | some esc =>
    if esc.status ≠ "created" then
      (db, Except.error ("Cannot fund: status is " ++ esc.status))
    else
      let db1 := updateEscrow db escrowId (fundFlip now depositTxHash)
      let db2 := logEvent db1 now escrowId "funded" esc.buyer_address
        [("depositTxHash", depositTxHash)]
      (db2, Except.ok { id := escrowId, status := "funded" })

/-- The row update performed by `deliverEscrow`'s SQL UPDATE. -/
def deliverFlip (now : Int) (e : EscrowRow) : EscrowRow :=
  { e with status := "delivered", updated_at := now }

/-- Function `deliverEscrow` (escrow.js line 121): requires status `"funded"`;
sets status `"delivered"` (the source checks no deadline here) and logs a
`"delivered"` event with the proof. -/
def deliverEscrow (db : EscrowDB) (now : Int) (escrowId deliveryProof : String) :
    EscrowDB × Except String StatusResp :=
  match getEscrow db escrowId with
  | none => (db, Except.error "Escrow not found")
  | some esc =>
    if esc.status ≠ "funded" then
      (db, Except.error ("Cannot deliver: status is " ++ esc.status))
    else
      let db1 := updateEscrow db escrowId (deliverFlip now)
      let db2 := logEvent db1 now escrowId "delivered" esc.seller_address
        [("proof", deliveryProof)]
      (db2, Except.ok { id := escrowId, status := "delivered" })

/-- Response object of `acceptEscrow`. -/
structure AcceptResp where
  id : String
  status : String
  seller : String
  message : String
  deriving DecidableEq, Repr

/-- The payout message built by `acceptEscrow`. -/
def payoutMessage (amount : Int) : String :=
  "Payment of " ++ toString amount ++ " USDC released to seller."

/-- The row update performed by `acceptEscrow`'s SQL UPDATE (also the
effect of the sweeper's auto-release, which calls `acceptEscrow`). -/
def completeFlip (now : Int) (e : EscrowRow) : EscrowRow :=
  { e with status := "completed", updated_at := now }

/-- Function `acceptEscrow` (escrow.js line 141): requires status `"delivered"`;
sets status `"completed"` and logs a `"completed"` event naming the
seller as payout target. -/
def acceptEscrow (db : EscrowDB) (now : Int) (escrowId : String) :
    EscrowDB × Except String AcceptResp :=
  match getEscrow db escrowId with
  | none => (db, Except.error "Escrow not found")
  | some esc =>
    if esc.status ≠ "delivered" then
      (db, Except.error ("Cannot accept: status is " ++ esc.status))
    else
      let db1 := updateEscrow db escrowId (completeFlip now)
      let db2 := logEvent db1 now escrowId "completed" esc.buyer_address
        [("released_to", esc.seller_address)]
      (db2, Except.ok { id := escrowId, status := "completed",
                        seller := esc.seller_address,
                        message := payoutMessage esc.amount_usdc })

/-- The row update performed by `disputeEscrow`'s SQL UPDATE. -/
def disputeFlip (now : Int) (reason : String) (evidence : Option String)
    (e : EscrowRow) : EscrowRow :=
  { e with status := "disputed", dispute_reason := some reason,
           dispute_evidence := evidence, updated_at := now }

/-- Function `disputeEscrow` (escrow.js line 162): requires status `"funded"` or
`"delivered"` (no caller, window or reason check in the source); sets
status `"disputed"` with the reason and evidence and logs a `"disputed"`
event with the given disputer as actor. -/
def disputeEscrow (db : EscrowDB) (now : Int)
    (escrowId disputerAddress reason : String) (evidence : Option String) :
    EscrowDB × Except String StatusResp :=
  match getEscrow db escrowId with
  | none => (db, Except.error "Escrow not found")
  | some esc =>
    if esc.status ≠ "funded" ∧ esc.status ≠ "delivered" then
      (db, Except.error ("Cannot dispute: status is " ++ esc.status))
    else
      let db1 := updateEscrow db escrowId (disputeFlip now reason evidence)
      let db2 := logEvent db1 now escrowId "disputed" disputerAddress
        [("reason", reason), ("evidence", evidence.getD "null")]
      (db2, Except.ok { id := escrowId, status := "disputed" })

/-- Response object of `resolveDispute`. -/
structure ResolveResp where
  id : String
  status : String
  resolution : String
  winner : String
  message : String
  deriving DecidableEq, Repr

/-- The refund message built by `resolveDispute` for a buyer win. -/
def refundMessage (amount : Int) : String :=
  "Refund of " ++ toString amount ++ " USDC to buyer."

/-- The row update performed by `resolveDispute`'s SQL UPDATE. -/
def resolveFlip (now : Int) (newStatus resolution : String) (e : EscrowRow) :
    EscrowRow :=
  { e with status := newStatus, resolution := some resolution, updated_at := now }

/-- Function `resolveDispute` (escrow.js line 185): requires status `"disputed"`.
The new status is `"refunded"` when `winner = "buyer"` and `"completed"`
for every other winner value; the source never produces a `"resolved"`
status and never validates the winner argument. -/
def resolveDispute (db : EscrowDB) (now : Int)
    (escrowId resolution winner : String) :
    EscrowDB × Except String ResolveResp :=
  match getEscrow db escrowId with
  | none => (db, Except.error "Escrow not found")
  | some esc =>
    if esc.status ≠ "disputed" then
      (db, Except.error ("Cannot resolve: status is " ++ esc.status))
    else
      let newStatus := if winner = "buyer" then "refunded" else "completed"
      let db1 := updateEscrow db escrowId (resolveFlip now newStatus resolution)
      let db2 := logEvent db1 now escrowId "resolved" "trustlayer"
        [("resolution", resolution), ("winner", winner)]
      (db2, Except.ok { id := escrowId, status := newStatus,
                        resolution := resolution, winner := winner,
                        message := if winner = "buyer"
                          then refundMessage esc.amount_usdc
                          else payoutMessage esc.amount_usdc })

/-! ## Expiry sweeper (escrow.js `processExpiredEscrows`, index.js cron) -/

/-- One day in milliseconds — the fixed acceptance window used by the
sweeper's `updated_at < datetime('now', '-1 day')` selection. -/
def oneDayMs : Int := 86400000

/-- Selection predicate of the auto-release query:
`status = 'delivered' AND updated_at < datetime('now', '-1 day')`. -/
def autoReleasePred (now : Int) (e : EscrowRow) : Bool :=
  e.status == "delivered" && decide (e.updated_at < now - oneDayMs)

/-- The UTC calendar day of a millisecond timestamp: days since the
epoch, by floor division (`/` on `Int` is floor division for a positive
divisor; the civil time scale underlying both `Date.now()` and SQLite's
`datetime` is leap-second-free, so every UTC day spans exactly 86400000
of these milliseconds). -/
def utcDay (t : Int) : Int := t / 86400000

/-- Selection predicate of the auto-refund query:
`status = 'funded' AND deadline < datetime('now')`.  The stored
`deadline` is a JS `toISOString` value (`"YYYY-MM-DDTHH:MM:SS.sssZ"`)
while `datetime('now')` yields `"YYYY-MM-DD HH:MM:SS"`, and SQLite
compares the two TEXT values lexicographically: both share the ten-byte
`"YYYY-MM-DD"` date prefix, so if the dates differ the digit comparison
decides in UTC-date order, and if they are equal the comparison is
decided at byte 10, where `'T'` (0x54) sorts after `' '` (0x20) — the
deadline then compares greater and the row is not selected.  The
comparison therefore holds exactly when the deadline's UTC day precedes
the current UTC day (for timestamps in the four-digit-year range the
application uses). -/
def autoRefundPred (now : Int) (e : EscrowRow) : Bool :=
  e.status == "funded" && decide (utcDay e.deadline < utcDay now)

/-- The auto-release loop: for each selected escrow, `acceptEscrow` then
an `"auto_completed"` event.  A thrown error aborts the loop (prior
iterations stay committed), as the JavaScript `for` loop would. -/
def sweepRelease (now : Int) : EscrowDB → List EscrowRow →
    EscrowDB × Except String Unit
  | db, [] => (db, Except.ok ())
  | db, esc :: rest =>
    match acceptEscrow db now esc.id with
    | (db1, Except.ok _) =>
      let db2 := logEvent db1 now esc.id "auto_completed" "system"
        [("reason", "24h acceptance window expired")]
      sweepRelease now db2 rest
    | (db1, Except.error e) => (db1, Except.error e)

/-- The row update performed by the sweeper's auto-refund UPDATE. -/
def refundFlip (now : Int) (e : EscrowRow) : EscrowRow :=
  { e with status := "refunded", updated_at := now }

/-- The auto-refund loop: for each selected escrow, a direct
`UPDATE ... SET status = 'refunded'` then an `"auto_refunded"` event. -/
def sweepRefund (now : Int) : EscrowDB → List EscrowRow → EscrowDB
  | db, [] => db
  | db, esc :: rest =>
    let db1 := updateEscrow db esc.id (refundFlip now)
    let db2 := logEvent db1 now esc.id "auto_refunded" "system"
      [("reason", "Deadline passed without delivery")]
    sweepRefund now db2 rest

/-- Function `processExpiredEscrows` (escrow.js line 212): select and auto-release
the expired `"delivered"` escrows, then select and auto-refund the
`"funded"` escrows past deadline; returns the two counts. -/
def processExpiredEscrows (db : EscrowDB) (now : Int) :
    EscrowDB × Except String (Nat × Nat) :=
  let autoRelease := db.escrows.filter (autoReleasePred now)
  match sweepRelease now db autoRelease with
  | (db1, Except.error e) => (db1, Except.error e)
  | (db1, Except.ok _) =>
    let autoRefund := db1.escrows.filter (autoRefundPred now)
    let db2 := sweepRefund now db1 autoRefund
    (db2, Except.ok (autoRelease.length, autoRefund.length))

/-! ## On-chain ClawVault contract (contracts/ClawVault.sol)

Addresses are modelled as naturals, with `0` for `address(0)`; `bytes32`
values as naturals, with `0` for `bytes32(0)`; `block.timestamp` in
seconds as a natural.  Each function acts on the single escrow record it
touches and returns the updated record together with the ordered list of
`usdc.safeTransfer` calls it performs.  A failed `require` becomes
`Except.error` carrying the revert string. -/

/-- The `Status` enumeration of ClawVault. -/
inductive VStatus
  | Active
  | Delivered
  | Completed
  | Disputed
  | Refunded
  | Resolved
  deriving DecidableEq, Repr

/-- The `Escrow` struct of ClawVault. -/
structure VEscrow where
  buyer : Nat
  seller : Nat
  amount : Nat
  fee : Nat
  serviceHash : Nat
  deliveryHash : Nat
  deadline : Nat
  deliveredAt : Nat
  acceptanceWindow : Nat
  status : VStatus
  disputeReason : String
  deriving DecidableEq, Repr

/-- One `usdc.safeTransfer(recipient, amount)` call. -/
structure Transfer where
  recipient : Nat
  amount : Nat
  deriving DecidableEq, Repr

/-- Contract function `createEscrow` (ClawVault.sol line 149): validates the
seller, amount, deadline and acceptance window, computes the fee and
returns the new escrow record together with the fee-inclusive total
pulled from the buyer. -/
def vCreateEscrow (sender seller amount serviceHash deadlineSeconds
    acceptanceWindowSeconds now feeBps : Nat) : Except String (VEscrow × Nat) :=
  if ¬(seller ≠ 0 ∧ seller ≠ sender) then Except.error "Invalid seller"
  else if ¬(amount > 0) then Except.error "Amount must be > 0"
  else if ¬(deadlineSeconds ≥ 3600) then Except.error "Deadline too short"
  else if ¬(deadlineSeconds ≤ 7776000) then Except.error "Deadline too long"
  else if ¬(acceptanceWindowSeconds ≥ 3600 ∧ acceptanceWindowSeconds ≤ 604800) then
    Except.error "Invalid acceptance window"
  else
    let fee := amount * feeBps / 10000
    Except.ok
      ({ buyer := sender, seller := seller, amount := amount, fee := fee,
         serviceHash := serviceHash, deliveryHash := 0,
         deadline := now + deadlineSeconds, deliveredAt := 0,
         acceptanceWindow := acceptanceWindowSeconds,
         status := VStatus.Active, disputeReason := "" },
       amount + fee)

/-- Contract function `markDelivered` (ClawVault.sol line 199): seller only, from
`Active`, only while `block.timestamp <= deadline`, non-empty proof; sets
`deliveredAt` and moves to `Delivered`. -/
def vMarkDelivered (e : VEscrow) (sender now deliveryHash : Nat) :
    Except String VEscrow :=
  if sender ≠ e.seller then Except.error "Not seller"
  else if e.status ≠ VStatus.Active then Except.error "Not active"
  else if ¬(now ≤ e.deadline) then Except.error "Deadline passed"
  else if deliveryHash = 0 then Except.error "Empty proof"
  else Except.ok { e with deliveryHash := deliveryHash, deliveredAt := now,
                          status := VStatus.Delivered }

/-- The seller payout followed by the conditional fee transfer, shared by
`acceptDelivery`, the seller branch of `resolveDispute`, and
`claimByTimeout`. -/
def payoutTransfers (e : VEscrow) (feeRecipient : Nat) : List Transfer :=
  { recipient := e.seller, amount := e.amount } ::
    (if e.fee > 0 then [{ recipient := feeRecipient, amount := e.fee }] else [])

/-- Contract function `acceptDelivery` (ClawVault.sol line 215): buyer only, from
`Delivered`; moves to `Completed` and pays the seller and fee recipient. -/
def vAcceptDelivery (e : VEscrow) (sender feeRecipient : Nat) :
    Except String (VEscrow × List Transfer) :=
  if sender ≠ e.buyer then Except.error "Not buyer"
  else if e.status ≠ VStatus.Delivered then Except.error "Not delivered"
  else Except.ok ({ e with status := VStatus.Completed },
                  payoutTransfers e feeRecipient)

/-- Contract function `openDispute` (ClawVault.sol line 235): buyer only, from
`Delivered`, only while `block.timestamp <= deliveredAt + acceptanceWindow`,
non-empty reason; moves to `Disputed`. -/
def vOpenDispute (e : VEscrow) (sender now : Nat) (reason : String) :
    Except String VEscrow :=
  if sender ≠ e.buyer then Except.error "Not buyer"
  else if e.status ≠ VStatus.Delivered then Except.error "Not delivered"
  else if ¬(now ≤ e.deliveredAt + e.acceptanceWindow) then
    Except.error "Acceptance window expired"
  else if reason.length = 0 then Except.error "Reason required"
  else Except.ok { e with status := VStatus.Disputed, disputeReason := reason }

/-- Contract function `resolveDispute` (ClawVault.sol line 255): arbiter only,
from `Disputed`; moves to `Resolved` and refunds the buyer (amount + fee)
when the buyer wins, else pays the seller and fee recipient. -/
def vResolveDispute (e : VEscrow) (sender arbiter feeRecipient : Nat)
    (buyerWins : Bool) : Except String (VEscrow × List Transfer) :=
  if sender ≠ arbiter then Except.error "Not arbiter"
  else if e.status ≠ VStatus.Disputed then Except.error "Not disputed"
  else
    let e1 := { e with status := VStatus.Resolved }
    if buyerWins then
      Except.ok (e1, [{ recipient := e.buyer, amount := e.amount + e.fee }])
    else
      Except.ok (e1, payoutTransfers e feeRecipient)

/-- Contract function `reclaimExpired` (ClawVault.sol line 283): buyer only, from
`Active`, only when `block.timestamp > deadline` (strict); moves to
`Refunded` and refunds the buyer in full. -/
def vReclaimExpired (e : VEscrow) (sender now : Nat) :
    Except String (VEscrow × List Transfer) :=
  if sender ≠ e.buyer then Except.error "Not buyer"
  else if e.status ≠ VStatus.Active then Except.error "Not active"
  else if ¬(now > e.deadline) then Except.error "Deadline not passed"
  else Except.ok ({ e with status := VStatus.Refunded },
                  [{ recipient := e.buyer, amount := e.amount + e.fee }])

/-- Contract function `claimByTimeout` (ClawVault.sol line 298): seller only, from
`Delivered`, only when `block.timestamp > deliveredAt + acceptanceWindow`
(strict); moves to `Completed` and pays the seller and fee recipient. -/
def vClaimByTimeout (e : VEscrow) (sender now feeRecipient : Nat) :
    Except String (VEscrow × List Transfer) :=
  if sender ≠ e.seller then Except.error "Not seller"
  else if e.status ≠ VStatus.Delivered then Except.error "Not delivered"
  else if ¬(now > e.deliveredAt + e.acceptanceWindow) then
    Except.error "Acceptance window not expired"
  else Except.ok ({ e with status := VStatus.Completed },
                  payoutTransfers e feeRecipient)

/-! ## State machines

`specEdge` follows the spec's words; `codeEdge` is the transition set the
internal engine actually realizes (derived below from the operations). -/

/-- Modelled from the spec: the allowed edges of the §4.1 state machine
(`create` starts at `created`; `fund`: created→funded; `deliver`:
funded→delivered; `accept`: delivered→completed; `dispute`:
delivered→disputed; `resolve`: disputed→resolved; `reclaimExpired`:
created/funded→refunded; `claimByTimeout`: delivered→completed), written
in the internal engine's lower-case status vocabulary. -/
def specEdge (a b : String) : Bool :=
  (a == "created" && b == "funded") ||
  (a == "funded" && b == "delivered") ||
  (a == "delivered" && b == "completed") ||
  (a == "delivered" && b == "disputed") ||
  (a == "disputed" && b == "resolved") ||
  (a == "created" && b == "refunded") ||
  (a == "funded" && b == "refunded")

/-- The transition edges the internal engine's operations actually
perform: `disputeEscrow` also fires from `funded`, `resolveDispute` ends
in `refunded` or `completed` (never `resolved`), and the sweeper refunds
only `funded` escrows. -/
def codeEdge (a b : String) : Bool :=
  (a == "created" && b == "funded") ||
  (a == "funded" && b == "delivered") ||
  (a == "funded" && b == "disputed") ||
  (a == "funded" && b == "refunded") ||
  (a == "delivered" && b == "completed") ||
  (a == "delivered" && b == "disputed") ||
  (a == "disputed" && b == "refunded") ||
  (a == "disputed" && b == "completed")

/-- Row-wise relation between a store and its successor: ids are stable
and each row's status is unchanged or moves along one `codeEdge`. -/
def StepRel (e e' : EscrowRow) : Prop :=
  e'.id = e.id ∧ (e'.status = e.status ∨ codeEdge e.status e'.status = true)

/-- A store mutation is a walk step when the rows align one-to-one under
`StepRel`. -/
def WalkStep (l l' : List EscrowRow) : Prop :=
  List.Forall₂ StepRel l l'

/-- The per-row action of one sweeper run (proved below): an expired
`"delivered"` row is completed, a `"funded"` row whose deadline falls on
an earlier UTC day is refunded, and every other row — including
`"created"` rows past their deadline — is left untouched. -/
def sweepFlip (now : Int) (e : EscrowRow) : EscrowRow :=
  if autoReleasePred now e then completeFlip now e
  else if autoRefundPred now e then refundFlip now e
  else e

/-- A concrete escrow row used by the concrete-input theorems below. -/
def sampleRow (st : String) : EscrowRow :=
  { id := "esc_1", buyer_address := "0xbuyer", seller_address := "0xseller",
    amount_usdc := 100, service_description := "svc",
    acceptance_criteria := none, deadline := 1000, status := st,
    deposit_tx := none, dispute_reason := none, dispute_evidence := none,
    resolution := none, created_at := 0, updated_at := 0 }

/-- A one-escrow store holding `sampleRow st`. -/
def sampleDB (st : String) : EscrowDB :=
  { escrows := [sampleRow st], events := [] }

/-- A two-escrow store: a `"created"` escrow and a `"funded"` escrow,
both with deadline 1000. -/
def twoRowDB : EscrowDB :=
  { escrows := [sampleRow "created", { sampleRow "funded" with id := "esc_2" }],
    events := [] }

/-- A concrete ClawVault escrow used by the concrete-input theorems
below (buyer 1, seller 2, amount 1000000, fee 10000, deadline 5000,
delivered at 6000 with a 3600-second acceptance window). -/
def sampleVEscrow (st : VStatus) : VEscrow :=
  { buyer := 1, seller := 2, amount := 1000000, fee := 10000,
    serviceHash := 77, deliveryHash := 88, deadline := 5000,
    deliveredAt := 6000, acceptanceWindow := 3600, status := st,
    disputeReason := "" }

/-! ## Store lemmas -/

theorem getEscrow_logEvent (db : EscrowDB) (now : Int)
    (i t a : String) (d : List (String × String)) (j : String) :
    getEscrow (logEvent db now i t a d) j = getEscrow db j := rfl

theorem logEvent_escrows (db : EscrowDB) (now : Int)
    (i t a : String) (d : List (String × String)) :
    (logEvent db now i t a d).escrows = db.escrows := rfl

theorem updateEscrow_events (db : EscrowDB) (i : String)
    (f : EscrowRow → EscrowRow) :
    (updateEscrow db i f).events = db.events := rfl

theorem find?_map_id_pres (f : EscrowRow → EscrowRow)
    (hid : ∀ e, (f e).id = e.id) (j : String) (l : List EscrowRow) :
    (l.map f).find? (fun e => e.id == j) =
      (l.find? (fun e => e.id == j)).map f := by
  induction l with
  | nil => rfl
  | cons e l ih =>
    cases h : (e.id == j) with
    | true => simp [List.find?, hid, h]
    | false => simp [List.find?, hid, h, ih]

theorem getEscrow_updateEscrow (db : EscrowDB) (i : String)
    (f : EscrowRow → EscrowRow) (hid : ∀ e, (f e).id = e.id) (j : String) :
    getEscrow (updateEscrow db i f) j =
      (getEscrow db j).map (fun e => if e.id = i then f e else e) := by
  have hg : ∀ e : EscrowRow, (if e.id = i then f e else e).id = e.id := by
    intro e
    by_cases h : e.id = i <;> simp [h, hid]
  exact find?_map_id_pres _ hg j db.escrows

theorem updateEscrow_ids (db : EscrowDB) (i : String)
    (f : EscrowRow → EscrowRow) (hid : ∀ e, (f e).id = e.id) :
    (updateEscrow db i f).escrows.map EscrowRow.id =
      db.escrows.map EscrowRow.id := by
  unfold updateEscrow
  simp only [List.map_map]
  apply List.map_congr_left
  intro e _
  by_cases h : e.id = i <;> simp [h, hid]

theorem find?_self_of_nodup (l : List EscrowRow)
    (hnd : (l.map EscrowRow.id).Nodup) :
    ∀ e ∈ l, l.find? (fun x => x.id == e.id) = some e := by
  induction l with
  | nil => intro e he; cases he
  | cons a l ih =>
    intro e he
    rw [List.map_cons, List.nodup_cons] at hnd
    rcases List.mem_cons.mp he with rfl | hmem
    · simp [List.find?]
    · have hne : (a.id == e.id) = false := by
        rw [beq_eq_false_iff_ne]
        intro hcontra
        exact hnd.1 (hcontra ▸ List.mem_map_of_mem EscrowRow.id hmem)
      simpa [List.find?, hne] using ih hnd.2 e hmem

/-- In a store with no duplicate ids, every member row is found by its
own id. -/
theorem getEscrow_self (db : EscrowDB)
    (hnd : (db.escrows.map EscrowRow.id).Nodup) :
    ∀ e ∈ db.escrows, getEscrow db e.id = some e :=
  fun e he => find?_self_of_nodup db.escrows hnd e he

/-- In a store with no duplicate ids, a member row whose id matches the
found row is the found row. -/
theorem mem_eq_of_getEscrow (db : EscrowDB)
    (hnd : (db.escrows.map EscrowRow.id).Nodup)
    {e esc : EscrowRow} {i : String} (he : e ∈ db.escrows) (hid : e.id = i)
    (hget : getEscrow db i = some esc) : e = esc := by
  have h := getEscrow_self db hnd e he
  rw [hid, hget] at h
  exact (Option.some_injective _ h).symm

/-- A successful single-row update under distinct ids is a walk step,
provided the update preserves ids and moves the found row's status along
a `codeEdge` (or keeps it). -/
theorem walkStep_updateEscrow (db : EscrowDB) (i : String) {esc : EscrowRow}
    (f : EscrowRow → EscrowRow)
    (hnd : (db.escrows.map EscrowRow.id).Nodup)
    (hget : getEscrow db i = some esc)
    (hid : ∀ e, (f e).id = e.id)
    (hedge : (f esc).status = esc.status ∨ codeEdge esc.status (f esc).status = true) :
    WalkStep db.escrows (updateEscrow db i f).escrows := by
  unfold WalkStep updateEscrow
  simp only
  rw [List.forall₂_map_right_iff]
  apply List.forall₂_same.mpr
  intro e he
  by_cases h : e.id = i
  · have heq : e = esc := mem_eq_of_getEscrow db hnd he h hget
    subst heq
    simp only [h, if_pos]
    exact ⟨hid e, hedge⟩
  · simp only [h, if_neg, if_false]
    exact ⟨rfl, Or.inl rfl⟩

/-! ## Operation characterization lemmas -/

theorem fundEscrow_not_found (db : EscrowDB) (now : Int) (i tx : String)
    (h : getEscrow db i = none) :
    fundEscrow db now i tx = (db, Except.error "Escrow not found") := by
  simp [fundEscrow, h]

theorem fundEscrow_bad_status (db : EscrowDB) (now : Int) (i tx : String)
    {esc : EscrowRow} (h : getEscrow db i = some esc)
    (hst : esc.status ≠ "created") :
    fundEscrow db now i tx =
      (db, Except.error ("Cannot fund: status is " ++ esc.status)) := by
  simp [fundEscrow, h, hst]

theorem fundEscrow_ok (db : EscrowDB) (now : Int) (i tx : String)
    {esc : EscrowRow} (h : getEscrow db i = some esc)
    (hst : esc.status = "created") :
    fundEscrow db now i tx =
      (logEvent (updateEscrow db i (fundFlip now tx)) now i "funded"
        esc.buyer_address [("depositTxHash", tx)],
       Except.ok { id := i, status := "funded" }) := by
  simp [fundEscrow, h, hst]

theorem deliverEscrow_not_found (db : EscrowDB) (now : Int) (i p : String)
    (h : getEscrow db i = none) :
    deliverEscrow db now i p = (db, Except.error "Escrow not found") := by
  simp [deliverEscrow, h]

theorem deliverEscrow_bad_status (db : EscrowDB) (now : Int) (i p : String)
    {esc : EscrowRow} (h : getEscrow db i = some esc)
    (hst : esc.status ≠ "funded") :
    deliverEscrow db now i p =
      (db, Except.error ("Cannot deliver: status is " ++ esc.status)) := by
  simp [deliverEscrow, h, hst]

theorem deliverEscrow_ok (db : EscrowDB) (now : Int) (i p : String)
    {esc : EscrowRow} (h : getEscrow db i = some esc)
    (hst : esc.status = "funded") :
    deliverEscrow db now i p =
      (logEvent (updateEscrow db i (deliverFlip now)) now i "delivered"
        esc.seller_address [("proof", p)],
       Except.ok { id := i, status := "delivered" }) := by
  simp [deliverEscrow, h, hst]

theorem acceptEscrow_not_found (db : EscrowDB) (now : Int) (i : String)
    (h : getEscrow db i = none) :
    acceptEscrow db now i = (db, Except.error "Escrow not found") := by
  simp [acceptEscrow, h]

theorem acceptEscrow_bad_status (db : EscrowDB) (now : Int) (i : String)
    {esc : EscrowRow} (h : getEscrow db i = some esc)
    (hst : esc.status ≠ "delivered") :
    acceptEscrow db now i =
      (db, Except.error ("Cannot accept: status is " ++ esc.status)) := by
  simp [acceptEscrow, h, hst]

theorem acceptEscrow_ok (db : EscrowDB) (now : Int) (i : String)
    {esc : EscrowRow} (h : getEscrow db i = some esc)
    (hst : esc.status = "delivered") :
    acceptEscrow db now i =
      (logEvent (updateEscrow db i (completeFlip now)) now i "completed"
        esc.buyer_address [("released_to", esc.seller_address)],
       Except.ok { id := i, status := "completed", seller := esc.seller_address,
                   message := payoutMessage esc.amount_usdc }) := by
  simp [acceptEscrow, h, hst]

theorem disputeEscrow_not_found (db : EscrowDB) (now : Int)
    (i addr reason : String) (ev : Option String)
    (h : getEscrow db i = none) :
    disputeEscrow db now i addr reason ev = (db, Except.error "Escrow not found") := by
  simp [disputeEscrow, h]

theorem disputeEscrow_bad_status (db : EscrowDB) (now : Int)
    (i addr reason : String) (ev : Option String)
    {esc : EscrowRow} (h : getEscrow db i = some esc)
    (h1 : esc.status ≠ "funded") (h2 : esc.status ≠ "delivered") :
    disputeEscrow db now i addr reason ev =
      (db, Except.error ("Cannot dispute: status is " ++ esc.status)) := by
  simp [disputeEscrow, h, h1, h2]

theorem disputeEscrow_ok (db : EscrowDB) (now : Int)
    (i addr reason : String) (ev : Option String)
    {esc : EscrowRow} (h : getEscrow db i = some esc)
    (hst : esc.status = "funded" ∨ esc.status = "delivered") :
    disputeEscrow db now i addr reason ev =
      (logEvent (updateEscrow db i (disputeFlip now reason ev)) now i "disputed"
        addr [("reason", reason), ("evidence", ev.getD "null")],
       Except.ok { id := i, status := "disputed" }) := by
  have hc : ¬(esc.status ≠ "funded" ∧ esc.status ≠ "delivered") := by
    rcases hst with h' | h' <;> simp [h']
  simp [disputeEscrow, h, hc]

theorem resolveDispute_not_found (db : EscrowDB) (now : Int)
    (i res winner : String) (h : getEscrow db i = none) :
    resolveDispute db now i res winner = (db, Except.error "Escrow not found") := by
  simp [resolveDispute, h]

theorem resolveDispute_bad_status (db : EscrowDB) (now : Int)
    (i res winner : String) {esc : EscrowRow} (h : getEscrow db i = some esc)
    (hst : esc.status ≠ "disputed") :
    resolveDispute db now i res winner =
      (db, Except.error ("Cannot resolve: status is " ++ esc.status)) := by
  simp [resolveDispute, h, hst]

theorem resolveDispute_ok (db : EscrowDB) (now : Int)
    (i res winner : String) {esc : EscrowRow} (h : getEscrow db i = some esc)
    (hst : esc.status = "disputed") :
    resolveDispute db now i res winner =
      (logEvent (updateEscrow db i
          (resolveFlip now (if winner = "buyer" then "refunded" else "completed") res))
        now i "resolved" "trustlayer" [("resolution", res), ("winner", winner)],
       Except.ok { id := i,
                   status := if winner = "buyer" then "refunded" else "completed",
                   resolution := res, winner := winner,
                   message := if winner = "buyer"
                     then refundMessage esc.amount_usdc
                     else payoutMessage esc.amount_usdc }) := by
  simp [resolveDispute, h, hst]

/-! ## Sweeper shape lemmas -/

theorem sweepRelease_shape (now : Int) (todo : List EscrowRow) :
    ∀ db : EscrowDB,
      (todo.map EscrowRow.id).Nodup →
      (∀ t ∈ todo, getEscrow db t.id = some t ∧ t.status = "delivered") →
      ∃ evs, sweepRelease now db todo =
        ({ escrows := db.escrows.map (fun e =>
             if e.id ∈ todo.map EscrowRow.id then completeFlip now e else e),
           events := db.events ++ evs }, Except.ok ()) := by
  induction todo with
  | nil =>
    intro db _ _
    refine ⟨[], ?_⟩
    simp [sweepRelease]
  | cons t rest ih =>
    intro db hnd h2
    obtain ⟨hget, hdel⟩ := h2 t (List.mem_cons_self t rest)
    rw [List.map_cons, List.nodup_cons] at hnd
    have hacc := acceptEscrow_ok db now t.id hget hdel
    have hid : ∀ e : EscrowRow, (completeFlip now e).id = e.id := fun _ => rfl
    set db1 := updateEscrow db t.id (completeFlip now) with hdb1
    set db2 := logEvent db1 now t.id "completed" t.buyer_address
      [("released_to", t.seller_address)] with hdb2
    set db3 := logEvent db2 now t.id "auto_completed" "system"
      [("reason", "24h acceptance window expired")] with hdb3
    have hstep : sweepRelease now db (t :: rest) = sweepRelease now db3 rest := by
      simp only [sweepRelease, hacc]
    have h2' : ∀ r ∈ rest, getEscrow db3 r.id = some r ∧ r.status = "delivered" := by
      intro r hr
      have hne : r.id ≠ t.id := by
        intro hcontra
        exact hnd.1 (hcontra ▸ List.mem_map_of_mem EscrowRow.id hr)
      have hup := getEscrow_updateEscrow db t.id (completeFlip now) hid r.id
      have hg : getEscrow db3 r.id = getEscrow db1 r.id := rfl
      have := (h2 r (List.mem_cons_of_mem t hr)).1
      rw [hg, hup, this]
      simp [hne]
      exact (h2 r (List.mem_cons_of_mem t hr)).2
    obtain ⟨evs', hrest⟩ := ih db3 hnd.2 h2'
    refine ⟨{ escrow_id := t.id, event_type := "completed",
              actor := t.buyer_address,
              data := [("released_to", t.seller_address)], created_at := now } ::
            { escrow_id := t.id, event_type := "auto_completed", actor := "system",
              data := [("reason", "24h acceptance window expired")],
              created_at := now } :: evs', ?_⟩
    rw [hstep, hrest]
    have hesc3 : db3.escrows = db.escrows.map
        (fun e => if e.id = t.id then completeFlip now e else e) := rfl
    have hev3 : db3.events = db.events ++
        [{ escrow_id := t.id, event_type := "completed", actor := t.buyer_address,
           data := [("released_to", t.seller_address)], created_at := now },
         { escrow_id := t.id, event_type := "auto_completed", actor := "system",
           data := [("reason", "24h acceptance window expired")],
           created_at := now }] := by
      simp [hdb3, hdb2, hdb1, logEvent, updateEscrow]
    have hmaps : db3.escrows.map
        (fun e => if e.id ∈ rest.map EscrowRow.id then completeFlip now e else e) =
        db.escrows.map (fun e =>
          if e.id ∈ (t :: rest).map EscrowRow.id then completeFlip now e else e) := by
      rw [hesc3, List.map_map]
      apply List.map_congr_left
      intro e _
      by_cases h : e.id = t.id
      · have : t.id ∉ rest.map EscrowRow.id := hnd.1
        simp [Function.comp, h, this, completeFlip]
      · by_cases h' : e.id ∈ rest.map EscrowRow.id <;>
          simp [Function.comp, h, h', List.mem_cons]
    rw [Prod.mk.injEq]
    constructor
    · rw [EscrowDB.mk.injEq]
      constructor
      · exact hmaps
      · rw [hev3, List.append_assoc]
        rfl
    · rfl

theorem sweepRefund_shape (now : Int) (todo : List EscrowRow) :
    ∀ db : EscrowDB,
      ∃ evs, sweepRefund now db todo =
        { escrows := db.escrows.map (fun e =>
            if e.id ∈ todo.map EscrowRow.id then refundFlip now e else e),
          events := db.events ++ evs } := by
  induction todo with
  | nil =>
    intro db
    refine ⟨[], ?_⟩
    simp [sweepRefund]
  | cons t rest ih =>
    intro db
    set db1 := updateEscrow db t.id (refundFlip now) with hdb1
    set db2 := logEvent db1 now t.id "auto_refunded" "system"
      [("reason", "Deadline passed without delivery")] with hdb2
    have hstep : sweepRefund now db (t :: rest) = sweepRefund now db2 rest := rfl
    obtain ⟨evs', hrest⟩ := ih db2
    refine ⟨{ escrow_id := t.id, event_type := "auto_refunded", actor := "system",
              data := [("reason", "Deadline passed without delivery")],
              created_at := now } :: evs', ?_⟩
    rw [hstep, hrest]
    have hesc2 : db2.escrows = db.escrows.map
        (fun e => if e.id = t.id then refundFlip now e else e) := rfl
    have hev2 : db2.events = db.events ++
        [{ escrow_id := t.id, event_type := "auto_refunded", actor := "system",
           data := [("reason", "Deadline passed without delivery")],
           created_at := now }] := by
      simp [hdb2, hdb1, logEvent, updateEscrow]
    have hmaps : db2.escrows.map
        (fun e => if e.id ∈ rest.map EscrowRow.id then refundFlip now e else e) =
        db.escrows.map (fun e =>
          if e.id ∈ (t :: rest).map EscrowRow.id then refundFlip now e else e) := by
      rw [hesc2, List.map_map]
      apply List.map_congr_left
      intro e _
      by_cases h : e.id = t.id
      · by_cases h' : e.id ∈ rest.map EscrowRow.id <;>
          simp [Function.comp, h, h', refundFlip]
      · by_cases h' : e.id ∈ rest.map EscrowRow.id <;>
          simp [Function.comp, h, h', List.mem_cons]
    rw [EscrowDB.mk.injEq]
    constructor
    · exact hmaps
    · rw [hev2, List.append_assoc]
      rfl

theorem map_pres_ids (l : List EscrowRow) (f : EscrowRow → EscrowRow)
    (hid : ∀ e, (f e).id = e.id) :
    (l.map f).map EscrowRow.id = l.map EscrowRow.id := by
  rw [List.map_map]
  exact List.map_congr_left (fun e _ => hid e)

/-- In a store with no duplicate ids, a row's id appears among the ids of
the `p`-filtered rows exactly when the row itself satisfies `p`. -/
theorem mem_filter_ids_iff (db : EscrowDB) (p : EscrowRow → Bool)
    (hnd : (db.escrows.map EscrowRow.id).Nodup) :
    ∀ e ∈ db.escrows,
      (e.id ∈ (db.escrows.filter p).map EscrowRow.id ↔ p e = true) := by
  intro e he
  constructor
  · intro hmem
    obtain ⟨t, ht, htid⟩ := List.mem_map.mp hmem
    obtain ⟨htm, htp⟩ := List.mem_filter.mp ht
    have h1 := getEscrow_self db hnd t htm
    have h2 := getEscrow_self db hnd e he
    rw [htid, h2] at h1
    obtain rfl := Option.some_inj.mp h1
    exact htp
  · intro hp
    exact List.mem_map_of_mem EscrowRow.id (List.mem_filter.mpr ⟨he, hp⟩)

/-- One sweeper run on a store with no duplicate ids: it succeeds, maps
every row through `sweepFlip`, appends only events, and reports the two
selection counts. -/
theorem processExpiredEscrows_shape (db : EscrowDB) (now : Int)
    (hnd : (db.escrows.map EscrowRow.id).Nodup) :
    ∃ evs, processExpiredEscrows db now =
      ({ escrows := db.escrows.map (sweepFlip now),
         events := db.events ++ evs },
       Except.ok ((db.escrows.filter (autoReleasePred now)).length,
                  (db.escrows.filter (autoRefundPred now)).length)) := by
  have hndrel : ((db.escrows.filter (autoReleasePred now)).map EscrowRow.id).Nodup :=
    hnd.sublist ((List.filter_sublist db.escrows).map EscrowRow.id)
  have h2 : ∀ t ∈ db.escrows.filter (autoReleasePred now),
      getEscrow db t.id = some t ∧ t.status = "delivered" := by
    intro t ht
    obtain ⟨htm, htp⟩ := List.mem_filter.mp ht
    refine ⟨getEscrow_self db hnd t htm, ?_⟩
    unfold autoReleasePred at htp
    exact beq_iff_eq.mp (Bool.and_elim_left htp)
  obtain ⟨evs1, hrel⟩ :=
    sweepRelease_shape now (db.escrows.filter (autoReleasePred now)) db hndrel h2
  -- rewrite the membership test of the release phase into its predicate
  have hrelmap : db.escrows.map (fun e =>
      if e.id ∈ (db.escrows.filter (autoReleasePred now)).map EscrowRow.id
      then completeFlip now e else e) =
      db.escrows.map (fun e =>
        if autoReleasePred now e then completeFlip now e else e) := by
    apply List.map_congr_left
    intro e he
    have hiff := mem_filter_ids_iff db (autoReleasePred now) hnd e he
    by_cases h : autoReleasePred now e = true
    · simp [h, hiff.mpr h]
    · have : e.id ∉ (db.escrows.filter (autoReleasePred now)).map EscrowRow.id :=
        fun hc => h (hiff.mp hc)
      simp [h, this]
  set relMap : EscrowRow → EscrowRow :=
    fun e => if autoReleasePred now e then completeFlip now e else e with hrelMap
  have hrelid : ∀ e : EscrowRow, (relMap e).id = e.id := by
    intro e
    by_cases h : autoReleasePred now e <;> simp [hrelMap, h, completeFlip]
  set db1 : EscrowDB :=
    { escrows := db.escrows.map relMap, events := db.events ++ evs1 } with hdb1def
  have hrel1 : sweepRelease now db (db.escrows.filter (autoReleasePred now)) =
      (db1, Except.ok ()) := by
    rw [hrel, hdb1def, hrelmap]
  have hnd1 : (db1.escrows.map EscrowRow.id).Nodup := by
    rw [hdb1def]
    simp only
    rw [map_pres_ids db.escrows relMap hrelid]
    exact hnd
  obtain ⟨evs2, href⟩ :=
    sweepRefund_shape now (db1.escrows.filter (autoRefundPred now)) db1
  have hrefmap : db1.escrows.map (fun e =>
      if e.id ∈ (db1.escrows.filter (autoRefundPred now)).map EscrowRow.id
      then refundFlip now e else e) =
      db1.escrows.map (fun e =>
        if autoRefundPred now e then refundFlip now e else e) := by
    apply List.map_congr_left
    intro e he
    have hiff := mem_filter_ids_iff db1 (autoRefundPred now) hnd1 e he
    by_cases h : autoRefundPred now e = true
    · simp [h, hiff.mpr h]
    · have : e.id ∉ (db1.escrows.filter (autoRefundPred now)).map EscrowRow.id :=
        fun hc => h (hiff.mp hc)
      simp [h, this]
  -- the composite per-row action is `sweepFlip`
  have hcomp : db1.escrows.map (fun e =>
      if autoRefundPred now e then refundFlip now e else e) =
      db.escrows.map (sweepFlip now) := by
    rw [hdb1def]
    simp only
    rw [List.map_map]
    apply List.map_congr_left
    intro e _
    by_cases h : autoReleasePred now e = true
    · have hrf : autoRefundPred now (completeFlip now e) = false := by
        simp [autoRefundPred, completeFlip]
      simp [Function.comp, hrelMap, sweepFlip, h, hrf]
    · simp [Function.comp, hrelMap, sweepFlip, h]
  -- the refund-phase count equals the count over the original store
  have hcount : (db1.escrows.filter (autoRefundPred now)).length =
      (db.escrows.filter (autoRefundPred now)).length := by
    rw [hdb1def]
    simp only
    rw [List.filter_map, List.length_map]
    congr 1
    apply List.filter_congr
    intro e _
    by_cases h : autoReleasePred now e = true
    · have hdel : e.status = "delivered" := by
        unfold autoReleasePred at h
        exact beq_iff_eq.mp (Bool.and_elim_left h)
      simp [Function.comp, hrelMap, h, autoRefundPred, completeFlip, hdel]
    · simp [Function.comp, hrelMap, h]
  refine ⟨evs1 ++ evs2, ?_⟩
  show (match sweepRelease now db (db.escrows.filter (autoReleasePred now)) with
    | (db1', Except.error e) => (db1', Except.error e)
    | (db1', Except.ok _) =>
      let autoRefund := db1'.escrows.filter (autoRefundPred now)
      (sweepRefund now db1' autoRefund,
       Except.ok ((db.escrows.filter (autoReleasePred now)).length,
                  autoRefund.length))) = _
  rw [hrel1]
  simp only
  rw [href]
  rw [Prod.mk.injEq]
  refine ⟨?_, ?_⟩
  · rw [EscrowDB.mk.injEq]
    refine ⟨?_, ?_⟩
    · rw [hrefmap, hcomp]
    · rw [hdb1def]
      simp only
      rw [List.append_assoc]
  · rw [hcount]

/-- The row a successful lookup returns carries the looked-up id. -/
theorem getEscrow_id (db : EscrowDB) (i : String) {esc : EscrowRow}
    (h : getEscrow db i = some esc) : esc.id = i := by
  have h2 := List.find?_some h
  simp only [beq_iff_eq] at h2
  exact h2

theorem utcDay_mono {a b : Int} (h : a ≤ b) : utcDay a ≤ utcDay b := by
  unfold utcDay
  omega

theorem lt_of_utcDay_lt {a b : Int} (h : utcDay a < utcDay b) : a < b := by
  by_contra hc
  push_neg at hc
  exact absurd h (not_lt.mpr (utcDay_mono hc))

/-! ## Claims -/

/-- C7: replaying `accept` on an escrow already in status `"completed"`
returns the invalid-state error with the store — escrow rows and event
rows alike — completely unchanged, so no new event and no second payout
directive is produced.  More generally, every internal lifecycle
operation invoked once its required predecessor state has been passed is
a no-op error, and `acceptDelivery` on a `Completed` ClawVault escrow
reverts before any transfer. -/
theorem c7_accept_replay_noop (db : EscrowDB) (now : Int)
    (i tx proof addr reason res winner : String) (ev : Option String)
    (esc : EscrowRow) (ve : VEscrow) (sender feeRecipient : Nat)
    (hget : getEscrow db i = some esc) :
    (esc.status = "completed" →
      acceptEscrow db now i =
        (db, Except.error "Cannot accept: status is completed")) ∧
    (esc.status ≠ "created" →
      fundEscrow db now i tx =
        (db, Except.error ("Cannot fund: status is " ++ esc.status))) ∧
    (esc.status ≠ "funded" →
      deliverEscrow db now i proof =
        (db, Except.error ("Cannot deliver: status is " ++ esc.status))) ∧
    (esc.status ≠ "delivered" →
      acceptEscrow db now i =
        (db, Except.error ("Cannot accept: status is " ++ esc.status))) ∧
    (esc.status ≠ "funded" → esc.status ≠ "delivered" →
      disputeEscrow db now i addr reason ev =
        (db, Except.error ("Cannot dispute: status is " ++ esc.status))) ∧
    (esc.status ≠ "disputed" →
      resolveDispute db now i res winner =
        (db, Except.error ("Cannot resolve: status is " ++ esc.status))) ∧
    (sender = ve.buyer → ve.status = VStatus.Completed →
      vAcceptDelivery ve sender feeRecipient = Except.error "Not delivered") := by
  refine ⟨?_, ?_, ?_, ?_, ?_, ?_, ?_⟩
  · intro hst
    have hne : esc.status ≠ "delivered" := by rw [hst]; decide
    rw [acceptEscrow_bad_status db now i hget hne, hst]
    rfl
  · intro hne
    exact fundEscrow_bad_status db now i tx hget hne
  · intro hne
    exact deliverEscrow_bad_status db now i proof hget hne
  · intro hne
    exact acceptEscrow_bad_status db now i hget hne
  · intro h1 h2
    exact disputeEscrow_bad_status db now i addr reason ev hget h1 h2
  · intro hne
    exact resolveDispute_bad_status db now i res winner hget hne
  · intro hs hst
    simp [vAcceptDelivery, hs, hst]

/-- C7 witness: the store holding exactly one `"completed"` escrow is
left byte-for-byte unchanged by a replayed `accept`. -/
theorem c7_accept_replay_noop_w :
    acceptEscrow (sampleDB "completed") 99 "esc_1" =
      (sampleDB "completed", Except.error "Cannot accept: status is completed") :=
  (c7_accept_replay_noop (sampleDB "completed") 99 "esc_1" "tx" "p" "a" "r" "rs" "w"
    none (sampleRow "completed") (sampleVEscrow VStatus.Completed) 1 9 rfl).1 rfl

/-- C10: every internal lifecycle operation invoked on a missing id, or
from a state that does not permit it, returns an error and leaves both
stores (escrow rows and event rows) completely unchanged. -/
theorem c10_failure_atomicity (db : EscrowDB) (now : Int)
    (i tx proof addr reason res winner : String) (ev : Option String) :
    (getEscrow db i = none →
      fundEscrow db now i tx = (db, Except.error "Escrow not found") ∧
      deliverEscrow db now i proof = (db, Except.error "Escrow not found") ∧
      acceptEscrow db now i = (db, Except.error "Escrow not found") ∧
      disputeEscrow db now i addr reason ev = (db, Except.error "Escrow not found") ∧
      resolveDispute db now i res winner = (db, Except.error "Escrow not found")) ∧
    (∀ esc, getEscrow db i = some esc →
      (esc.status ≠ "created" → (fundEscrow db now i tx).1 = db ∧
        ∃ m, (fundEscrow db now i tx).2 = Except.error m) ∧
      (esc.status ≠ "funded" → (deliverEscrow db now i proof).1 = db ∧
        ∃ m, (deliverEscrow db now i proof).2 = Except.error m) ∧
      (esc.status ≠ "delivered" → (acceptEscrow db now i).1 = db ∧
        ∃ m, (acceptEscrow db now i).2 = Except.error m) ∧
      (esc.status ≠ "funded" → esc.status ≠ "delivered" →
        (disputeEscrow db now i addr reason ev).1 = db ∧
        ∃ m, (disputeEscrow db now i addr reason ev).2 = Except.error m) ∧
      (esc.status ≠ "disputed" → (resolveDispute db now i res winner).1 = db ∧
        ∃ m, (resolveDispute db now i res winner).2 = Except.error m)) := by
  constructor
  · intro hn
    exact ⟨fundEscrow_not_found db now i tx hn,
           deliverEscrow_not_found db now i proof hn,
           acceptEscrow_not_found db now i hn,
           disputeEscrow_not_found db now i addr reason ev hn,
           resolveDispute_not_found db now i res winner hn⟩
  · intro esc hget
    refine ⟨?_, ?_, ?_, ?_, ?_⟩
    · intro hne
      rw [fundEscrow_bad_status db now i tx hget hne]
      exact ⟨rfl, _, rfl⟩
    · intro hne
      rw [deliverEscrow_bad_status db now i proof hget hne]
      exact ⟨rfl, _, rfl⟩
    · intro hne
      rw [acceptEscrow_bad_status db now i hget hne]
      exact ⟨rfl, _, rfl⟩
    · intro h1 h2
      rw [disputeEscrow_bad_status db now i addr reason ev hget h1 h2]
      exact ⟨rfl, _, rfl⟩
    · intro hne
      rw [resolveDispute_bad_status db now i res winner hget hne]
      exact ⟨rfl, _, rfl⟩

/-- C10 witness: funding a missing id and resolving a non-disputed
escrow both fail and leave the concrete one-escrow store unchanged. -/
theorem c10_failure_atomicity_w :
    fundEscrow (sampleDB "created") 7 "esc_missing" "tx" =
      (sampleDB "created", Except.error "Escrow not found") ∧
    (resolveDispute (sampleDB "created") 7 "esc_1" "r" "buyer").1 =
      sampleDB "created" :=
  ⟨((c10_failure_atomicity (sampleDB "created") 7 "esc_missing" "tx" "p" "a" "r"
      "rs" "w" none).1 rfl).1,
   (((c10_failure_atomicity (sampleDB "created") 7 "esc_1" "tx" "p" "a" "r" "rs"
      "buyer" none).2 (sampleRow "created") rfl).2.2.2.2 (by decide)).1⟩

/-- C2 counterexample: `createEscrow` called with amount 0 (violating
amount > 0) and with the seller equal to the buyer stores a new record in
status `"created"` instead of failing with `InvalidArgument` — the
internal engine performs no validation at all (its result type cannot
even carry an error). -/
theorem c2_counterexample :
    ¬((0 : Int) > 0) ∧
    (createEscrow { escrows := [], events := [] } 0 "esc_1" "alice" "alice" 0
        "svc" none 24).1.escrows.length = 1 ∧
    (createEscrow { escrows := [], events := [] } 0 "esc_1" "alice" "alice" 0
        "svc" none 24).2.status = "created" := by
  refine ⟨by decide, rfl, rfl⟩

/-- C2 (amended): the internal `createEscrow` performs no validation —
for every input, including amount ≤ 0 or seller = buyer, it stores
exactly one new record in status `"created"` with
`deadline = now + deadlineHours·3600·1000`; the creation preconditions
exist only on-chain, where `ClawVault.createEscrow` rejects a zero amount
and a seller equal to the caller, and any successful on-chain creation
implies them. -/
theorem c2_amended (db : EscrowDB) (now : Int) (id buyer seller desc : String)
    (crit : Option String) (amount hours : Int)
    (sender seller2 amount2 sh d w t bps : Nat) :
    ((createEscrow db now id buyer seller amount desc crit hours).1.escrows =
       db.escrows ++
         [{ id := id, buyer_address := buyer, seller_address := seller,
            amount_usdc := amount, service_description := desc,
            acceptance_criteria := crit,
            deadline := now + hours * 3600 * 1000, status := "created",
            deposit_tx := none, dispute_reason := none,
            dispute_evidence := none, resolution := none,
            created_at := now, updated_at := now }] ∧
     (createEscrow db now id buyer seller amount desc crit hours).2.status =
       "created") ∧
    (seller2 ≠ 0 → seller2 ≠ sender →
      vCreateEscrow sender seller2 0 sh d w t bps =
        Except.error "Amount must be > 0") ∧
    (vCreateEscrow sender sender amount2 sh d w t bps =
      Except.error "Invalid seller") ∧
    (∀ e total, vCreateEscrow sender seller2 amount2 sh d w t bps =
        Except.ok (e, total) →
      amount2 > 0 ∧ seller2 ≠ sender ∧ seller2 ≠ 0 ∧
      e.status = VStatus.Active ∧ e.deadline = t + d ∧
      e.buyer = sender ∧ e.seller = seller2 ∧
      total = amount2 + amount2 * bps / 10000) := by
  refine ⟨⟨rfl, rfl⟩, ?_, ?_, ?_⟩
  · intro h1 h2
    simp [vCreateEscrow, h1, h2]
  · simp [vCreateEscrow]
  · intro e total hok
    unfold vCreateEscrow at hok
    split_ifs at hok with h1 h2 h3 h4 h5
    simp only [Except.ok.injEq, Prod.mk.injEq] at hok
    push_neg at h1 h2
    obtain ⟨he, ht⟩ := hok
    obtain rfl := he
    obtain rfl := ht
    exact ⟨h2, h1.2, h1.1, rfl, rfl, rfl, rfl, rfl⟩

/-- C2 witness: a concrete invalid on-chain creation is rejected and a
concrete valid one succeeds into `Active` with the stated deadline. -/
theorem c2_amended_w :
    vCreateEscrow 1 2 0 77 3600 3600 100 100 =
      Except.error "Amount must be > 0" ∧
    vCreateEscrow 1 1 5 77 3600 3600 100 100 =
      Except.error "Invalid seller" :=
  ⟨(c2_amended { escrows := [], events := [] } 0 "esc_1" "b" "s" "d" none 1 24
      1 2 0 77 3600 3600 100 100).2.1 (by decide) (by decide),
   (c2_amended { escrows := [], events := [] } 0 "esc_1" "b" "s" "d" none 1 24
      1 1 5 77 3600 3600 100 100).2.2.1⟩

/-- C3 counterexample: the internal `deliverEscrow` succeeds on a funded
escrow whose deadline (1000) is long past at call time (2000000), instead
of failing with `DeadlineExceeded`; the source never consults the
deadline. -/
theorem c3_counterexample :
    (sampleRow "funded").deadline < 2000000 ∧
    (deliverEscrow (sampleDB "funded") 2000000 "esc_1" "proof").2 =
      Except.ok { id := "esc_1", status := "delivered" } ∧
    (getEscrow (deliverEscrow (sampleDB "funded") 2000000 "esc_1" "proof").1
        "esc_1").map EscrowRow.status = some "delivered" := by
  refine ⟨by decide, rfl, rfl⟩

/-- C3 (amended): the internal `deliverEscrow` checks only the status —
from `"funded"` it succeeds and marks the row `"delivered"` regardless of
the deadline, and from any other status it fails with the invalid-state
error; the bound `now ≤ deadline` is enforced only on-chain, where
`markDelivered` fails with "Deadline passed" once the deadline is over,
succeeds only from `Active` (so `deliveredAt` is set exactly once), and a
success records `deliveredAt = now` and status `Delivered`. -/
theorem c3_amended (db : EscrowDB) (now : Int) (i p : String)
    {esc : EscrowRow} (e : VEscrow) (sender t dh : Nat)
    (hget : getEscrow db i = some esc) :
    (esc.status = "funded" →
      (deliverEscrow db now i p).2 =
        Except.ok { id := i, status := "delivered" } ∧
      getEscrow (deliverEscrow db now i p).1 i = some (deliverFlip now esc)) ∧
    (esc.status ≠ "funded" →
      deliverEscrow db now i p =
        (db, Except.error ("Cannot deliver: status is " ++ esc.status))) ∧
    (sender = e.seller → e.status = VStatus.Active → t > e.deadline →
      vMarkDelivered e sender t dh = Except.error "Deadline passed") ∧
    (e.status ≠ VStatus.Active → sender = e.seller →
      vMarkDelivered e sender t dh = Except.error "Not active") ∧
    (∀ e', vMarkDelivered e sender t dh = Except.ok e' →
      t ≤ e.deadline ∧ e.status = VStatus.Active ∧
      e'.deliveredAt = t ∧ e'.status = VStatus.Delivered) := by
  refine ⟨?_, ?_, ?_, ?_, ?_⟩
  · intro hst
    rw [deliverEscrow_ok db now i p hget hst]
    refine ⟨rfl, ?_⟩
    have hid : ∀ x : EscrowRow, (deliverFlip now x).id = x.id := fun _ => rfl
    show getEscrow (logEvent (updateEscrow db i (deliverFlip now)) now i
      "delivered" esc.seller_address [("proof", p)]) i = _
    rw [getEscrow_logEvent, getEscrow_updateEscrow db i _ hid i, hget]
    simp [getEscrow_id db i hget]
  · intro hne
    exact deliverEscrow_bad_status db now i p hget hne
  · intro hs hst hlt
    have : ¬(t ≤ e.deadline) := by omega
    simp [vMarkDelivered, hs, hst, this]
  · intro hst hs
    simp [vMarkDelivered, hs, hst]
  · intro e' hok
    unfold vMarkDelivered at hok
    split_ifs at hok with h1 h2 h3 h4
    simp only [Except.ok.injEq] at hok
    push_neg at h2 h3
    obtain rfl := hok
    exact ⟨h3, h2, rfl, rfl⟩

/-- C3 witness: at concrete inputs, the internal deliver succeeds past
its deadline while the on-chain `markDelivered` rejects it. -/
theorem c3_amended_w :
    (deliverEscrow (sampleDB "funded") 5 "esc_1" "p").2 =
      Except.ok { id := "esc_1", status := "delivered" } ∧
    vMarkDelivered (sampleVEscrow VStatus.Active) 2 6000 9 =
      Except.error "Deadline passed" :=
  ⟨((c3_amended (sampleDB "funded") 5 "esc_1" "p" (sampleVEscrow VStatus.Active)
      2 6000 9 rfl).1 rfl).1,
   (c3_amended (sampleDB "funded") 5 "esc_1" "p" (sampleVEscrow VStatus.Active)
      2 6000 9 rfl).2.2.1 rfl rfl (by decide)⟩

/-- C4 counterexample: `disputeEscrow` succeeds on a *funded* (not yet
delivered) escrow, called by an address that is not the buyer, with an
empty reason, at an arbitrarily late time — none of the claim's
preconditions is checked by the internal engine. -/
theorem c4_counterexample :
    (sampleRow "funded").status ≠ "delivered" ∧
    "0xmallory" ≠ (sampleRow "funded").buyer_address ∧
    (disputeEscrow (sampleDB "funded") 999999999999 "esc_1" "0xmallory" ""
        none).2 = Except.ok { id := "esc_1", status := "disputed" } ∧
    (getEscrow (disputeEscrow (sampleDB "funded") 999999999999 "esc_1"
        "0xmallory" "" none).1 "esc_1").map EscrowRow.status =
      some "disputed" := by
  refine ⟨by decide, by decide, rfl, rfl⟩

/-- C4 (amended): the internal `disputeEscrow` succeeds exactly when the
status is `"funded"` or `"delivered"`, for any caller, any reason
(including empty) and any time, and fails with the invalid-state error
otherwise; the claim's preconditions are enforced only on-chain, where
`openDispute` succeeds only for the buyer, from `Delivered`, within the
acceptance window and with a non-empty reason, failing with
"Acceptance window expired" past the window and "Reason required" on an
empty reason. -/
theorem c4_amended (db : EscrowDB) (now : Int) (i addr reason : String)
    (ev : Option String) {esc : EscrowRow} (e : VEscrow) (sender t : Nat)
    (vreason : String) (hget : getEscrow db i = some esc) :
    (esc.status = "funded" ∨ esc.status = "delivered" →
      (disputeEscrow db now i addr reason ev).2 =
        Except.ok { id := i, status := "disputed" } ∧
      getEscrow (disputeEscrow db now i addr reason ev).1 i =
        some (disputeFlip now reason ev esc)) ∧
    (esc.status ≠ "funded" → esc.status ≠ "delivered" →
      disputeEscrow db now i addr reason ev =
        (db, Except.error ("Cannot dispute: status is " ++ esc.status))) ∧
    (∀ e', vOpenDispute e sender t vreason = Except.ok e' →
      sender = e.buyer ∧ e.status = VStatus.Delivered ∧
      t ≤ e.deliveredAt + e.acceptanceWindow ∧ vreason.length > 0 ∧
      e'.status = VStatus.Disputed) ∧
    (sender = e.buyer → e.status = VStatus.Delivered →
      t > e.deliveredAt + e.acceptanceWindow →
      vOpenDispute e sender t vreason =
        Except.error "Acceptance window expired") ∧
    (sender = e.buyer → e.status = VStatus.Delivered →
      t ≤ e.deliveredAt + e.acceptanceWindow → vreason.length = 0 →
      vOpenDispute e sender t vreason = Except.error "Reason required") := by
  refine ⟨?_, ?_, ?_, ?_, ?_⟩
  · intro hst
    rw [disputeEscrow_ok db now i addr reason ev hget hst]
    refine ⟨rfl, ?_⟩
    have hid : ∀ x : EscrowRow, (disputeFlip now reason ev x).id = x.id :=
      fun _ => rfl
    show getEscrow (logEvent (updateEscrow db i (disputeFlip now reason ev))
      now i "disputed" addr [("reason", reason), ("evidence", ev.getD "null")])
      i = _
    rw [getEscrow_logEvent, getEscrow_updateEscrow db i _ hid i, hget]
    simp [getEscrow_id db i hget]
  · intro h1 h2
    exact disputeEscrow_bad_status db now i addr reason ev hget h1 h2
  · intro e' hok
    unfold vOpenDispute at hok
    split_ifs at hok with h1 h2 h3 h4
    all_goals simp only [Except.ok.injEq] at hok
    push_neg at h1 h2 h3
    obtain rfl := hok
    refine ⟨h1, h2, h3, ?_, rfl⟩
    omega
  · intro hs hst hlt
    have : ¬(t ≤ e.deliveredAt + e.acceptanceWindow) := by omega
    simp [vOpenDispute, hs, hst, this]
  · intro hs hst hle hr
    simp [vOpenDispute, hs, hst, hle, hr]

/-- C4 witness: the internal dispute of a funded escrow by a non-buyer
with an empty reason succeeds, while the on-chain dispute past the
acceptance window is rejected. -/
theorem c4_amended_w :
    (disputeEscrow (sampleDB "funded") 7 "esc_1" "0xmallory" "" none).2 =
      Except.ok { id := "esc_1", status := "disputed" } ∧
    vOpenDispute (sampleVEscrow VStatus.Delivered) 1 99999 "bad" =
      Except.error "Acceptance window expired" :=
  ⟨((c4_amended (sampleDB "funded") 7 "esc_1" "0xmallory" ""
      none (sampleVEscrow VStatus.Delivered) 1 99999 "bad" rfl).1
      (Or.inl rfl)).1,
   (c4_amended (sampleDB "funded") 7 "esc_1" "0xmallory" ""
      none (sampleVEscrow VStatus.Delivered) 1 99999 "bad" rfl).2.2.2.1
      rfl rfl (by decide)⟩

/-- C5 counterexample: `resolveDispute` on a disputed escrow with winner
`"seller"` moves the escrow to status `"completed"`, not to the claimed
terminal status `"resolved"` — the internal engine never produces a
`"resolved"` status. -/
theorem c5_counterexample :
    (resolveDispute (sampleDB "disputed") 50 "esc_1" "notes" "seller").2 =
      Except.ok { id := "esc_1", status := "completed", resolution := "notes",
                  winner := "seller", message := payoutMessage 100 } ∧
    (getEscrow (resolveDispute (sampleDB "disputed") 50 "esc_1" "notes"
        "seller").1 "esc_1").map EscrowRow.status = some "completed" ∧
    "completed" ≠ "resolved" := by
  refine ⟨rfl, rfl, by decide⟩

/-- C5 (amended): from status `"disputed"`, the internal `resolveDispute`
moves the escrow to `"refunded"` with the refund message when the winner
argument is `"buyer"`, and to `"completed"` with the payout-to-seller
message for every other winner — never to `"resolved"`; from any other
status it fails with the invalid-state error.  On-chain,
`resolveDispute` does move the escrow to `Resolved`, paying the buyer
`amount + fee` on a buyer win and the seller (plus the fee recipient)
otherwise, and reverts with "Not disputed" from any other status. -/
theorem c5_amended (db : EscrowDB) (now : Int) (i res winner : String)
    {esc : EscrowRow} (e : VEscrow) (sender arb fr : Nat) (bw : Bool)
    (hget : getEscrow db i = some esc) :
    (esc.status = "disputed" → winner = "buyer" →
      (resolveDispute db now i res winner).2 =
        Except.ok { id := i, status := "refunded", resolution := res,
                    winner := winner,
                    message := refundMessage esc.amount_usdc } ∧
      getEscrow (resolveDispute db now i res winner).1 i =
        some (resolveFlip now "refunded" res esc)) ∧
    (esc.status = "disputed" → winner ≠ "buyer" →
      (resolveDispute db now i res winner).2 =
        Except.ok { id := i, status := "completed", resolution := res,
                    winner := winner,
                    message := payoutMessage esc.amount_usdc } ∧
      getEscrow (resolveDispute db now i res winner).1 i =
        some (resolveFlip now "completed" res esc)) ∧
    (esc.status ≠ "disputed" →
      resolveDispute db now i res winner =
        (db, Except.error ("Cannot resolve: status is " ++ esc.status))) ∧
    (∀ e' ts, vResolveDispute e sender arb fr bw = Except.ok (e', ts) →
      sender = arb ∧ e.status = VStatus.Disputed ∧
      e'.status = VStatus.Resolved ∧
      ts = if bw then [{ recipient := e.buyer, amount := e.amount + e.fee }]
           else payoutTransfers e fr) ∧
    (sender = arb → e.status ≠ VStatus.Disputed →
      vResolveDispute e sender arb fr bw = Except.error "Not disputed") := by
  refine ⟨?_, ?_, ?_, ?_, ?_⟩
  · intro hst hw
    rw [resolveDispute_ok db now i res winner hget hst]
    refine ⟨by simp [hw], ?_⟩
    have hid : ∀ x : EscrowRow, (resolveFlip now
        (if winner = "buyer" then "refunded" else "completed") res x).id =
        x.id := fun _ => rfl
    show getEscrow (logEvent (updateEscrow db i (resolveFlip now
        (if winner = "buyer" then "refunded" else "completed") res)) now i
        "resolved" "trustlayer" [("resolution", res), ("winner", winner)]) i = _
    rw [getEscrow_logEvent, getEscrow_updateEscrow db i _ hid i, hget]
    simp [getEscrow_id db i hget, hw]
  · intro hst hw
    rw [resolveDispute_ok db now i res winner hget hst]
    refine ⟨by simp [hw], ?_⟩
    have hid : ∀ x : EscrowRow, (resolveFlip now
        (if winner = "buyer" then "refunded" else "completed") res x).id =
        x.id := fun _ => rfl
    show getEscrow (logEvent (updateEscrow db i (resolveFlip now
        (if winner = "buyer" then "refunded" else "completed") res)) now i
        "resolved" "trustlayer" [("resolution", res), ("winner", winner)]) i = _
    rw [getEscrow_logEvent, getEscrow_updateEscrow db i _ hid i, hget]
    simp [getEscrow_id db i hget, hw]
  · intro hne
    exact resolveDispute_bad_status db now i res winner hget hne
  · intro e' ts hok
    unfold vResolveDispute at hok
    split_ifs at hok with h1 h2 h3
    all_goals simp only [Except.ok.injEq, Prod.mk.injEq] at hok
    · obtain ⟨he, hts⟩ := hok
      obtain rfl := he
      push_neg at h1 h2
      exact ⟨h1, h2, rfl, by simp [h3, hts.symm]⟩
    · obtain ⟨he, hts⟩ := hok
      obtain rfl := he
      push_neg at h1 h2
      exact ⟨h1, h2, rfl, by simp [h3, hts.symm]⟩
  · intro hs hst
    simp [vResolveDispute, hs, hst]

/-- C5 witness: at concrete inputs the internal resolve of a disputed
escrow with winner `"seller"` completes (does not resolve) it, and the
on-chain resolve of a non-disputed escrow reverts. -/
theorem c5_amended_w :
    (resolveDispute (sampleDB "disputed") 50 "esc_1" "notes" "seller").2 =
      Except.ok { id := "esc_1", status := "completed", resolution := "notes",
                  winner := "seller", message := payoutMessage 100 } ∧
    vResolveDispute (sampleVEscrow VStatus.Completed) 3 3 9 true =
      Except.error "Not disputed" :=
  ⟨((c5_amended (sampleDB "disputed") 50 "esc_1" "notes" "seller"
      (sampleVEscrow VStatus.Completed) 3 3 9 true rfl).2.1 rfl
      (by decide)).1,
   (c5_amended (sampleDB "disputed") 50 "esc_1" "notes" "seller"
      (sampleVEscrow VStatus.Completed) 3 3 9 true rfl).2.2.2.2 rfl
      (by decide)⟩

/-- C6 counterexample: `resolveDispute` called with a winner that is
neither `"buyer"` nor `"seller"` (and matches neither party's address)
returns success — completing the escrow as a seller win — instead of the
claimed error. -/
theorem c6_counterexample :
    "0xthirdparty" ≠ "buyer" ∧ "0xthirdparty" ≠ "seller" ∧
    "0xthirdparty" ≠ (sampleRow "disputed").buyer_address ∧
    "0xthirdparty" ≠ (sampleRow "disputed").seller_address ∧
    (resolveDispute (sampleDB "disputed") 50 "esc_1" "notes"
        "0xthirdparty").2 =
      Except.ok { id := "esc_1", status := "completed", resolution := "notes",
                  winner := "0xthirdparty",
                  message := payoutMessage 100 } := by
  refine ⟨by decide, by decide, by decide, by decide, rfl⟩

/-- C6 (amended): the internal `resolveDispute` never validates the
winner argument — every winner other than the literal `"buyer"`,
including an arbitrary third party, is treated as a seller win and the
escrow completes with the payout-to-seller message (no error, no funds to
the third party); funds can route only to the escrow's parties because
the on-chain interface takes a boolean and every transfer
`resolveDispute` emits goes to the buyer, the seller or the fee
recipient. -/
theorem c6_amended (db : EscrowDB) (now : Int) (i res winner : String)
    {esc : EscrowRow} (e : VEscrow) (sender arb fr : Nat) (bw : Bool)
    (hget : getEscrow db i = some esc) :
    (esc.status = "disputed" → winner ≠ "buyer" →
      (resolveDispute db now i res winner).2 =
        Except.ok { id := i, status := "completed", resolution := res,
                    winner := winner,
                    message := payoutMessage esc.amount_usdc }) ∧
    (∀ e' ts, vResolveDispute e sender arb fr bw = Except.ok (e', ts) →
      ∀ tr ∈ ts, tr.recipient = e.buyer ∨ tr.recipient = e.seller ∨
        tr.recipient = fr) := by
  constructor
  · intro hst hw
    rw [resolveDispute_ok db now i res winner hget hst]
    simp [hw]
  · intro e' ts hok
    unfold vResolveDispute at hok
    split_ifs at hok with h1 h2 h3
    all_goals simp only [Except.ok.injEq, Prod.mk.injEq] at hok
    · obtain ⟨he, hts⟩ := hok
      intro tr htr
      rw [← hts] at htr
      simp at htr
      obtain rfl := htr
      exact Or.inl rfl
    · obtain ⟨he, hts⟩ := hok
      intro tr htr
      rw [← hts] at htr
      unfold payoutTransfers at htr
      rcases List.mem_cons.mp htr with rfl | htr2
      · exact Or.inr (Or.inl rfl)
      · by_cases hf : e.fee > 0
        · simp [hf] at htr2
          obtain rfl := htr2
          exact Or.inr (Or.inr rfl)
        · simp [hf] at htr2

/-- C6 witness: at concrete inputs, resolving with a third-party winner
succeeds as a seller win, and a concrete on-chain resolution emits
transfers only to buyer, seller or fee recipient. -/
theorem c6_amended_w :
    (resolveDispute (sampleDB "disputed") 50 "esc_1" "notes"
        "0xattacker").2 =
      Except.ok { id := "esc_1", status := "completed", resolution := "notes",
                  winner := "0xattacker", message := payoutMessage 100 } :=
  (c6_amended (sampleDB "disputed") 50 "esc_1" "notes" "0xattacker"
    (sampleVEscrow VStatus.Disputed) 3 3 9 false rfl).1 rfl (by decide)

/-- C9: timeout boundaries are strict.  On-chain, `reclaimExpired`
succeeds only when `now > deadline` and fails with "Deadline not passed"
at any time at or before the boundary; `claimByTimeout` succeeds only
when `now > deliveredAt + acceptanceWindow` and fails with
"Acceptance window not expired" at or before that boundary.  The
sweeper's auto-refund selects an escrow only when `now` is strictly past
its deadline and leaves a funded escrow untouched at or before the
boundary; its auto-release fires only when `now` is strictly past the
delivery time plus the 24h window and leaves a delivered escrow
untouched at or before that boundary. -/
theorem c9_strict_timeout_boundaries (e : VEscrow) (sender now fr : Nat)
    (esc : EscrowRow) (t : Int) :
    (∀ e' ts, vReclaimExpired e sender now = Except.ok (e', ts) →
      now > e.deadline) ∧
    (sender = e.buyer → e.status = VStatus.Active → now ≤ e.deadline →
      vReclaimExpired e sender now = Except.error "Deadline not passed") ∧
    (∀ e' ts, vClaimByTimeout e sender now fr = Except.ok (e', ts) →
      now > e.deliveredAt + e.acceptanceWindow) ∧
    (sender = e.seller → e.status = VStatus.Delivered →
      now ≤ e.deliveredAt + e.acceptanceWindow →
      vClaimByTimeout e sender now fr =
        Except.error "Acceptance window not expired") ∧
    (autoRefundPred t esc = true → esc.deadline < t) ∧
    (esc.status = "funded" → t ≤ esc.deadline → sweepFlip t esc = esc) ∧
    (autoReleasePred t esc = true → esc.updated_at + oneDayMs < t) ∧
    (esc.status = "delivered" → t ≤ esc.updated_at + oneDayMs →
      sweepFlip t esc = esc) := by
  refine ⟨?_, ?_, ?_, ?_, ?_, ?_, ?_, ?_⟩
  · intro e' ts hok
    unfold vReclaimExpired at hok
    split_ifs at hok with h1 h2 h3
    all_goals simp only [Except.ok.injEq] at hok
    omega
  · intro hs hst hle
    have : ¬(now > e.deadline) := by omega
    simp [vReclaimExpired, hs, hst, this]
  · intro e' ts hok
    unfold vClaimByTimeout at hok
    split_ifs at hok with h1 h2 h3
    all_goals simp only [Except.ok.injEq] at hok
    omega
  · intro hs hst hle
    have : ¬(now > e.deliveredAt + e.acceptanceWindow) := by omega
    simp [vClaimByTimeout, hs, hst, this]
  · intro hp
    unfold autoRefundPred at hp
    exact lt_of_utcDay_lt (of_decide_eq_true (Bool.and_elim_right hp))
  · intro hst hle
    have h1 : autoReleasePred t esc = false := by
      unfold autoReleasePred
      rw [hst]
      simp
    have h2 : autoRefundPred t esc = false := by
      unfold autoRefundPred
      have : ¬(utcDay esc.deadline < utcDay t) := not_lt.mpr (utcDay_mono hle)
      simp [this]
    simp [sweepFlip, h1, h2]
  · intro hp
    unfold autoReleasePred at hp
    have := of_decide_eq_true (Bool.and_elim_right hp)
    unfold oneDayMs at this ⊢
    omega
  · intro hst hle
    have h1 : autoReleasePred t esc = false := by
      unfold autoReleasePred
      have : ¬(esc.updated_at < t - oneDayMs) := by
        unfold oneDayMs at hle ⊢
        omega
      simp [this]
    have h2 : autoRefundPred t esc = false := by
      unfold autoRefundPred
      rw [hst]
      simp
    simp [sweepFlip, h1, h2]

/-- C9 witness: one second before each boundary both on-chain timeout
claims fail with their "not reached" errors, and the sweeper leaves both
a funded and a delivered escrow untouched. -/
theorem c9_strict_timeout_boundaries_w :
    vReclaimExpired (sampleVEscrow VStatus.Active) 1 4999 =
      Except.error "Deadline not passed" ∧
    vClaimByTimeout (sampleVEscrow VStatus.Delivered) 2 9599 9 =
      Except.error "Acceptance window not expired" ∧
    sweepFlip 1000 (sampleRow "funded") = sampleRow "funded" ∧
    sweepFlip 86400000 (sampleRow "delivered") = sampleRow "delivered" :=
  ⟨(c9_strict_timeout_boundaries (sampleVEscrow VStatus.Active) 1 4999 9
      (sampleRow "funded") 1000).2.1 rfl rfl (by decide),
   (c9_strict_timeout_boundaries (sampleVEscrow VStatus.Delivered) 2 9599 9
      (sampleRow "funded") 1000).2.2.2.1 rfl rfl (by decide),
   (c9_strict_timeout_boundaries (sampleVEscrow VStatus.Active) 1 4999 9
      (sampleRow "funded") 1000).2.2.2.2.2.1 rfl (by decide),
   (c9_strict_timeout_boundaries (sampleVEscrow VStatus.Active) 1 4999 9
      (sampleRow "delivered") 86400000).2.2.2.2.2.2.2 rfl (by decide)⟩

/-- C1 counterexample: a successful internal operation realizes a
transition outside the §4.1 machine — `disputeEscrow` succeeds on a
*funded* escrow, moving it funded→disputed, although §4.1 allows dispute
only from `Delivered`. -/
theorem c1_counterexample :
    (disputeEscrow (sampleDB "funded") 0 "esc_1" "0xmallory" "bad" none).2 =
      Except.ok { id := "esc_1", status := "disputed" } ∧
    (getEscrow (disputeEscrow (sampleDB "funded") 0 "esc_1" "0xmallory" "bad"
        none).1 "esc_1").map EscrowRow.status = some "disputed" ∧
    specEdge "funded" "disputed" = false := by
  refine ⟨rfl, rfl, by decide⟩

/-- C1 (amended): in a store with no duplicate ids, every successful
internal operation — and every sweeper run — moves each escrow only along
an edge of the machine the code actually implements (`codeEdge`: the
§4.1 edges with dispute also allowed from funded, resolve ending in
refunded/completed instead of resolved, and the auto-refund edge only
from funded), never skipping a state; `createEscrow` starts a fresh row
at `"created"` and touches no existing row. -/
theorem c1_amended (db : EscrowDB) (now : Int)
    (i tx proof addr reason res winner buyer seller desc : String)
    (crit : Option String) (amt hrs : Int) (ev : Option String)
    (hnd : (db.escrows.map EscrowRow.id).Nodup) :
    (∃ row, (createEscrow db now i buyer seller amt desc crit hrs).1.escrows =
      db.escrows ++ [row] ∧ row.status = "created") ∧
    (∀ db' r, fundEscrow db now i tx = (db', Except.ok r) →
      WalkStep db.escrows db'.escrows) ∧
    (∀ db' r, deliverEscrow db now i proof = (db', Except.ok r) →
      WalkStep db.escrows db'.escrows) ∧
    (∀ db' r, acceptEscrow db now i = (db', Except.ok r) →
      WalkStep db.escrows db'.escrows) ∧
    (∀ db' r, disputeEscrow db now i addr reason ev = (db', Except.ok r) →
      WalkStep db.escrows db'.escrows) ∧
    (∀ db' r, resolveDispute db now i res winner = (db', Except.ok r) →
      WalkStep db.escrows db'.escrows) ∧
    (∀ db' r, processExpiredEscrows db now = (db', r) →
      WalkStep db.escrows db'.escrows) := by
  refine ⟨⟨_, rfl, rfl⟩, ?_, ?_, ?_, ?_, ?_, ?_⟩
  · intro db' r h
    cases hg : getEscrow db i with
    | none =>
      rw [fundEscrow_not_found db now i tx hg] at h
      simp [Prod.ext_iff] at h
    | some esc =>
      by_cases hst : esc.status = "created"
      · rw [fundEscrow_ok db now i tx hg hst] at h
        rw [Prod.mk.injEq] at h
        rw [← h.1]
        exact walkStep_updateEscrow db i (fundFlip now tx) hnd hg
          (fun _ => rfl) (Or.inr (by
            rw [hst]
            show codeEdge "created" "funded" = true
            decide))
      · rw [fundEscrow_bad_status db now i tx hg hst] at h
        simp [Prod.ext_iff] at h
  · intro db' r h
    cases hg : getEscrow db i with
    | none =>
      rw [deliverEscrow_not_found db now i proof hg] at h
      simp [Prod.ext_iff] at h
    | some esc =>
      by_cases hst : esc.status = "funded"
      · rw [deliverEscrow_ok db now i proof hg hst] at h
        rw [Prod.mk.injEq] at h
        rw [← h.1]
        exact walkStep_updateEscrow db i (deliverFlip now) hnd hg
          (fun _ => rfl) (Or.inr (by
            rw [hst]
            show codeEdge "funded" "delivered" = true
            decide))
      · rw [deliverEscrow_bad_status db now i proof hg hst] at h
        simp [Prod.ext_iff] at h
  · intro db' r h
    cases hg : getEscrow db i with
    | none =>
      rw [acceptEscrow_not_found db now i hg] at h
      simp [Prod.ext_iff] at h
    | some esc =>
      by_cases hst : esc.status = "delivered"
      · rw [acceptEscrow_ok db now i hg hst] at h
        rw [Prod.mk.injEq] at h
        rw [← h.1]
        exact walkStep_updateEscrow db i (completeFlip now) hnd hg
          (fun _ => rfl) (Or.inr (by
            rw [hst]
            show codeEdge "delivered" "completed" = true
            decide))
      · rw [acceptEscrow_bad_status db now i hg hst] at h
        simp [Prod.ext_iff] at h
  · intro db' r h
    cases hg : getEscrow db i with
    | none =>
      rw [disputeEscrow_not_found db now i addr reason ev hg] at h
      simp [Prod.ext_iff] at h
    | some esc =>
      by_cases hst : esc.status = "funded" ∨ esc.status = "delivered"
      · rw [disputeEscrow_ok db now i addr reason ev hg hst] at h
        rw [Prod.mk.injEq] at h
        rw [← h.1]
        refine walkStep_updateEscrow db i (disputeFlip now reason ev) hnd hg
          (fun _ => rfl) (Or.inr ?_)
        rcases hst with h' | h'
        · rw [h']
          show codeEdge "funded" "disputed" = true
          decide
        · rw [h']
          show codeEdge "delivered" "disputed" = true
          decide
      · push_neg at hst
        rw [disputeEscrow_bad_status db now i addr reason ev hg hst.1 hst.2] at h
        simp [Prod.ext_iff] at h
  · intro db' r h
    cases hg : getEscrow db i with
    | none =>
      rw [resolveDispute_not_found db now i res winner hg] at h
      simp [Prod.ext_iff] at h
    | some esc =>
      by_cases hst : esc.status = "disputed"
      · rw [resolveDispute_ok db now i res winner hg hst] at h
        rw [Prod.mk.injEq] at h
        rw [← h.1]
        refine walkStep_updateEscrow db i
          (resolveFlip now (if winner = "buyer" then "refunded" else "completed")
            res) hnd hg (fun _ => rfl) (Or.inr ?_)
        by_cases hw : winner = "buyer" <;> simp [hw, resolveFlip, hst] <;> decide
      · rw [resolveDispute_bad_status db now i res winner hg hst] at h
        simp [Prod.ext_iff] at h
  · intro db' r h
    obtain ⟨evs, hshape⟩ := processExpiredEscrows_shape db now hnd
    rw [hshape] at h
    rw [Prod.mk.injEq] at h
    rw [← h.1]
    unfold WalkStep
    simp only
    rw [List.forall₂_map_right_iff]
    apply List.forall₂_same.mpr
    intro e _
    unfold StepRel sweepFlip
    by_cases h1 : autoReleasePred now e = true
    · have hdel : e.status = "delivered" := by
        unfold autoReleasePred at h1
        exact beq_iff_eq.mp (Bool.and_elim_left h1)
      refine ⟨by simp [h1, completeFlip], Or.inr ?_⟩
      simp [h1, completeFlip]
      rw [hdel]
      decide
    · by_cases h2 : autoRefundPred now e = true
      · have hfun : e.status = "funded" := by
          unfold autoRefundPred at h2
          exact beq_iff_eq.mp (Bool.and_elim_left h2)
        refine ⟨by simp [h1, h2, refundFlip], Or.inr ?_⟩
        simp [h1, h2, refundFlip]
        rw [hfun]
        decide
      · exact ⟨by simp [h1, h2], Or.inl (by simp [h1, h2])⟩

/-- C1 witness: the funded→disputed step actually taken on the concrete
one-escrow store is a walk of the realized machine. -/
theorem c1_amended_w :
    WalkStep (sampleDB "funded").escrows
      (disputeEscrow (sampleDB "funded") 3 "esc_1" "a" "r" none).1.escrows :=
  (c1_amended (sampleDB "funded") 3 "esc_1" "tx" "p" "a" "r" "rs" "w" "b" "s"
    "d" none 1 1 none (by decide)).2.2.2.2.1
    (disputeEscrow (sampleDB "funded") 3 "esc_1" "a" "r" none).1
    { id := "esc_1", status := "disputed" } rfl

/-- C8 counterexample: a `"created"` escrow whose deadline (1000) has
long elapsed at sweep time (2000000) is *not* selected by the sweeper —
the run returns counts (0, 0) and leaves the store byte-for-byte
unchanged, although the claim requires every `Created` or `Funded` escrow
past deadline to be auto-refunded. -/
theorem c8_counterexample :
    (sampleRow "created").status = "created" ∧
    (sampleRow "created").deadline < 259200000 ∧
    processExpiredEscrows (sampleDB "created") 259200000 =
      (sampleDB "created", Except.ok (0, 0)) := by
  refine ⟨rfl, by decide, rfl⟩

/-- C8 (amended): on a store with no duplicate ids, a sweeper run
(a) applies `acceptEscrow` (auto-complete) to exactly the escrows in
status `"delivered"` whose `updated_at` — the delivery time — lies more
than the fixed global 24h window (not a per-escrow acceptance window,
which the internal store does not record) before `now`, and (b) directly
refunds exactly the escrows in status `"funded"` whose deadline falls on
an earlier UTC calendar day than `now`: because the ISO-format deadline
is compared lexicographically against the space-separated
`datetime('now')`, a deadline elapsed earlier on the *same* UTC day is
not yet selected; escrows in status `"created"` are never auto-refunded,
and every other row is untouched. -/
theorem c8_amended (db : EscrowDB) (now : Int)
    (hnd : (db.escrows.map EscrowRow.id).Nodup) :
    ∃ db' evs,
      processExpiredEscrows db now =
        (db', Except.ok ((db.escrows.filter (autoReleasePred now)).length,
                         (db.escrows.filter (autoRefundPred now)).length)) ∧
      db'.events = db.events ++ evs ∧
      db'.escrows = db.escrows.map (sweepFlip now) ∧
      (∀ e, autoReleasePred now e = true ↔
        (e.status = "delivered" ∧ e.updated_at < now - oneDayMs)) ∧
      (∀ e, autoRefundPred now e = true ↔
        (e.status = "funded" ∧ utcDay e.deadline < utcDay now)) ∧
      (∀ e, e.status = "delivered" → e.updated_at < now - oneDayMs →
        sweepFlip now e = completeFlip now e) ∧
      (∀ e, e.status = "funded" → utcDay e.deadline < utcDay now →
        sweepFlip now e = refundFlip now e) ∧
      (∀ e, e.status = "funded" → utcDay now ≤ utcDay e.deadline →
        sweepFlip now e = e) ∧
      (∀ e, e.status = "created" → sweepFlip now e = e) := by
  obtain ⟨evs, hshape⟩ := processExpiredEscrows_shape db now hnd
  refine ⟨_, evs, hshape, rfl, rfl, ?_, ?_, ?_, ?_, ?_, ?_⟩
  · intro e
    unfold autoReleasePred
    rw [Bool.and_eq_true, beq_iff_eq, decide_eq_true_eq]
  · intro e
    unfold autoRefundPred
    rw [Bool.and_eq_true, beq_iff_eq, decide_eq_true_eq]
  · intro e h1 h2
    have hp : autoReleasePred now e = true := by
      unfold autoReleasePred
      rw [Bool.and_eq_true, beq_iff_eq, decide_eq_true_eq]
      exact ⟨h1, h2⟩
    simp [sweepFlip, hp]
  · intro e h1 h2
    have hp1 : autoReleasePred now e = false := by
      unfold autoReleasePred
      rw [h1]
      simp
    have hp2 : autoRefundPred now e = true := by
      unfold autoRefundPred
      rw [Bool.and_eq_true, beq_iff_eq, decide_eq_true_eq]
      exact ⟨h1, h2⟩
    simp [sweepFlip, hp1, hp2]
  · intro e h1 h2
    have hp1 : autoReleasePred now e = false := by
      unfold autoReleasePred
      rw [h1]
      simp
    have hp2 : autoRefundPred now e = false := by
      unfold autoRefundPred
      have : ¬(utcDay e.deadline < utcDay now) := not_lt.mpr h2
      simp [this]
    simp [sweepFlip, hp1, hp2]
  · intro e h1
    have hp1 : autoReleasePred now e = false := by
      unfold autoReleasePred
      rw [h1]
      simp
    have hp2 : autoRefundPred now e = false := by
      unfold autoRefundPred
      rw [h1]
      simp
    simp [sweepFlip, hp1, hp2]

/-- C8 witness: sweeping a concrete store that holds a long-expired
`"created"` escrow and a long-expired `"funded"` escrow (both deadlines
on UTC day 0, sweep on UTC day 3) refunds only the funded one. -/
theorem c8_amended_w :
    ∃ db' evs,
      processExpiredEscrows twoRowDB 259200000 =
        (db', Except.ok ((twoRowDB.escrows.filter (autoReleasePred 259200000)).length,
                         (twoRowDB.escrows.filter (autoRefundPred 259200000)).length)) ∧
      db'.events = twoRowDB.events ++ evs ∧
      db'.escrows = twoRowDB.escrows.map (sweepFlip 259200000) ∧
      (∀ e, autoReleasePred 259200000 e = true ↔
        (e.status = "delivered" ∧ e.updated_at < 259200000 - oneDayMs)) ∧
      (∀ e, autoRefundPred 259200000 e = true ↔
        (e.status = "funded" ∧ utcDay e.deadline < utcDay 259200000)) ∧
      (∀ e, e.status = "delivered" → e.updated_at < 259200000 - oneDayMs →
        sweepFlip 259200000 e = completeFlip 259200000 e) ∧
      (∀ e, e.status = "funded" → utcDay e.deadline < utcDay 259200000 →
        sweepFlip 259200000 e = refundFlip 259200000 e) ∧
      (∀ e, e.status = "funded" → utcDay 259200000 ≤ utcDay e.deadline →
        sweepFlip 259200000 e = e) ∧
      (∀ e, e.status = "created" → sweepFlip 259200000 e = e) :=
  c8_amended twoRowDB 259200000 (by decide)

end TrustLayer
